import Mathlib

/-!
# BiblioAI frontend — verification of the catalog loader, search filter,
# HTTP client adapter and book-card rating display

Shallow embedding of the client core of the BiblioAI repository:

* `fetchBooks` / `MOCK_BOOKS`   — `src/frontend/src/pages/Books.jsx` (catalog loader)
* `filteredBooks`               — `src/frontend/src/pages/Books.jsx` (search filter)
* `requestInterceptor`          — `src/frontend/src/services/api.js` (axios request interceptor)
* `displayedRating`             — `src/frontend/src/components/BookCard.jsx`

JavaScript response bodies are modelled by the JSON-like value type `JVal`
(numbers as `ℚ`; strings as Lean strings, faithful for the ASCII data the
application handles).  JavaScript truthiness, optional chaining, property
access and the `x > 0` comparison are made explicit below, each with a note
of the exact JS rule it mirrors.
-/

namespace BiblioAI

/-- JSON-like JavaScript values, as delivered by `axios` in `response.data`.
`jnull` also stands for a missing (`undefined`) body, which the loader cannot
distinguish from `null`.  Numbers are rationals (the application's data uses
decimal literals such as `4.2`). -/
inductive JVal where
  | jnull : JVal
  | jnum (n : ℚ) : JVal
  | jstr (s : String) : JVal
  | jarr (elems : List JVal) : JVal
  | jobj (fields : List (String × JVal)) : JVal
deriving Repr, Inhabited

namespace JVal

/-- JavaScript truthiness of a value: `null`/`undefined` are falsy, `0` is
falsy, the empty string is falsy, every array and object is truthy. -/
def truthy : JVal → Bool
  | .jnull => false
  | .jnum n => decide (n ≠ 0)
  | .jstr s => !s.isEmpty
  | .jarr _ => true
  | .jobj _ => true

/-- `Array.isArray`. -/
def isArray : JVal → Bool
  | .jarr _ => true
  | _ => false

/-- JavaScript property access `v.k`; `none` stands for `undefined`.
Objects look the key up among their fields; arrays and strings expose a
numeric `length` property; every other access yields `undefined`. -/
def jsGet : JVal → String → Option JVal
  | .jobj fields, k => (fields.find? (fun p => p.1 == k)).map (fun p => p.2)
  | .jarr xs, k => if k == "length" then some (.jnum (xs.length : ℚ)) else none
  | .jstr s, k => if k == "length" then some (.jnum (s.length : ℚ)) else none
  | _, _ => none

/-- Optional chaining `v?.k`: short-circuits to `undefined` on
`null`/`undefined`, otherwise ordinary property access. -/
def optChainGet (v : JVal) (k : String) : Option JVal :=
  match v with
  | .jnull => none
  | _ => jsGet v k

/-- Truthiness of a possibly-`undefined` value (`undefined` is falsy). -/
def truthyOpt : Option JVal → Bool
  | none => false
  | some v => truthy v

end JVal

/-- JavaScript `ToNumber` after `ToPrimitive`, with `none` standing for NaN:
`null` coerces to `0`, numbers are themselves, the empty string is `0` and
integer numerals parse to their value (JS additionally trims whitespace and
accepts fractional/exponent/hex numerals; those strings coerce here to NaN —
for the one consumer below, the `> 0` comparison, NaN and `0` both yield
false, so only positive non-integer numerals are approximated), an array
stringifies and re-reads — `[]` is `""` hence `0`, a singleton is its
element's numeral, two or more elements join with commas hence NaN — and a
plain object stringifies to `"[object Object]"`, hence NaN. -/
def jsToNumber : JVal → Option ℚ
  | .jnull => some 0
  | .jnum n => some n
  | .jstr s => if s.isEmpty then some 0 else s.toInt?.map (fun n => (n : ℚ))
  | .jarr [] => some 0
  | .jarr [v] => jsToNumber v
  | .jarr (_ :: _ :: _) => none
  | .jobj _ => none

/-- The JavaScript comparison `x > 0` applied to a property-access result:
`undefined > 0` is false (`undefined` coerces to NaN) and every NaN
comparison is false; otherwise the coerced number is compared to zero. -/
def jsGtZero : Option JVal → Bool
  | none => false
  | some v =>
      match jsToNumber v with
      | some n => decide (0 < n)
      | none => false

/-- The `MOCK_BOOKS` constant of `Books.jsx`: the fixed six-record fallback
dataset, verbatim. -/
def MOCK_BOOKS : List JVal :=
  [ .jobj [("id", .jnum 1),
      ("title", .jstr "The Great Gatsby"),
      ("author", .jstr "F. Scott Fitzgerald"),
      ("description", .jstr "A story of decadence and idealism in the Jazz Age"),
      ("cover_url", .jstr "https://m.media-amazon.com/images/I/71FTb9X6wsL._AC_UF1000,1000_QL80_.jpg"),
      ("rating", .jnum 4.2),
      ("genre", .jstr "Classic"),
      ("published_year", .jnum 1925),
      ("pages", .jnum 218),
      ("isbn", .jstr "9780743273565")],
    .jobj [("id", .jnum 2),
      ("title", .jstr "To Kill a Mockingbird"),
      ("author", .jstr "Harper Lee"),
      ("description", .jstr "A novel about racial injustice and moral growth"),
      ("cover_url", .jstr "https://m.media-amazon.com/images/I/71FxgtFKcQL._AC_UF1000,1000_QL80_.jpg"),
      ("rating", .jnum 4.3),
      ("genre", .jstr "Fiction"),
      ("published_year", .jnum 1960),
      ("pages", .jnum 281),
      ("isbn", .jstr "9780446310789")],
    .jobj [("id", .jnum 3),
      ("title", .jstr "1984"),
      ("author", .jstr "George Orwell"),
      ("description", .jstr "A dystopian social science fiction novel"),
      ("cover_url", .jstr "https://m.media-amazon.com/images/I/71kxa1-0mfL._AC_UF1000,1000_QL80_.jpg"),
      ("rating", .jnum 4.2),
      ("genre", .jstr "Dystopian"),
      ("published_year", .jnum 1949),
      ("pages", .jnum 328),
      ("isbn", .jstr "9780451524935")],
    .jobj [("id", .jnum 4),
      ("title", .jstr "Pride and Prejudice"),
      ("author", .jstr "Jane Austen"),
      ("description", .jstr "A romantic novel of manners"),
      ("cover_url", .jstr "https://m.media-amazon.com/images/I/71Q1tPupKjL._AC_UF1000,1000_QL80_.jpg"),
      ("rating", .jnum 4.3),
      ("genre", .jstr "Romance"),
      ("published_year", .jnum 1813),
      ("pages", .jnum 432),
      ("isbn", .jstr "9780141439518")],
    .jobj [("id", .jnum 5),
      ("title", .jstr "The Hobbit"),
      ("author", .jstr "J.R.R. Tolkien"),
      ("description", .jstr "A fantasy novel about Bilbo Baggins' adventure"),
      ("cover_url", .jstr "https://m.media-amazon.com/images/I/710+HcoP38L._AC_UF1000,1000_QL80_.jpg"),
      ("rating", .jnum 4.3),
      ("genre", .jstr "Fantasy"),
      ("published_year", .jnum 1937),
      ("pages", .jnum 310),
      ("isbn", .jstr "9780547928227")],
    .jobj [("id", .jnum 6),
      ("title", .jstr "Harry Potter and the Philosopher's Stone"),
      ("author", .jstr "J.K. Rowling"),
      ("description", .jstr "The first book in the Harry Potter series"),
      ("cover_url", .jstr "https://m.media-amazon.com/images/I/81iqZ2HHD-L._AC_UF1000,1000_QL80_.jpg"),
      ("rating", .jnum 4.5),
      ("genre", .jstr "Fantasy"),
      ("published_year", .jnum 1997),
      ("pages", .jnum 223),
      ("isbn", .jstr "9780747532699")] ]

/-- Which branch of `fetchBooks` installed the catalog (the three branches of
the `if`/`else if`/`else`/`catch` in `Books.jsx`, distinguished in the source
by their `console.log` messages). -/
inductive Source where
  | remoteFlat : Source
  | remoteNested : Source
  | fallback : Source
deriving Repr, DecidableEq

/-- Outcome of `booksAPI.getAll()` as observed by `fetchBooks`: either a
resolved response carrying a body, or a thrown error (axios throws on any
transport failure and on every non-2xx status). -/
inductive FetchResult where
  | success (data : JVal) : FetchResult
  | failure : FetchResult
deriving Repr

/-- Final component state produced by one run of `fetchBooks`: the value
passed to `setBooks`, which branch produced it, the toast notice if one was
emitted, and the `loading` flag (set to `false` in the `finally` block). -/
structure LoadOutcome where
  books : JVal
  src : Source
  notice : Option String
  loading : Bool
deriving Repr

/-- The condition of the first branch of `fetchBooks`:
`response.data && Array.isArray(response.data) && response.data.length > 0`. -/
def flatCond (data : JVal) : Bool :=
  data.truthy && data.isArray && jsGtZero (data.jsGet "length")

/-- The condition of the second branch of `fetchBooks`:
`response.data?.books && response.data.books.length > 0`.  (The second
conjunct is only evaluated when the first is truthy, so `response.data` is
then non-null and has a `books` property; reading it through the same
optional chain is therefore equivalent.) -/
def nestedCond (data : JVal) : Bool :=
  JVal.truthyOpt (data.optChainGet "books") &&
    jsGtZero (match data.optChainGet "books" with
              | some b => b.jsGet "length"
              | none => none)

/-- `response.data.books`, the value installed by the second branch (defined
whenever `nestedCond` holds). -/
def nestedValue (data : JVal) : JVal :=
  (data.optChainGet "books").getD .jnull

/-- The `fetchBooks` function of `Books.jsx` as a state transformer: every
path ends with `setBooks` on some value and `setLoading(false)`, and only the
`catch` path emits a toast.  The function is total — the `try`/`catch`
absorbs every fetch failure, so no error escapes to the caller. -/
def fetchBooks : FetchResult → LoadOutcome
  | .success data =>
      if flatCond data then
        { books := data, src := .remoteFlat, notice := none, loading := false }
      else if nestedCond data then
        { books := nestedValue data, src := .remoteNested, notice := none, loading := false }
      else
        { books := .jarr MOCK_BOOKS, src := .fallback, notice := none, loading := false }
  | .failure =>
      { books := .jarr MOCK_BOOKS, src := .fallback,
        notice := some "Using demo data. Backend connection failed.", loading := false }

/-! ## Search filter (`filteredBooks` in `Books.jsx`) -/

/-- A `BookRecord` as read by the components: every field the views access,
optional where the source guards with `?.` or `||`.  (Numbers as `ℚ`, as in
the JSON model.) -/
structure Book where
  id : ℚ
  title : Option String
  author : Option String
  description : Option String
  cover_url : Option String
  rating : Option ℚ
  genre : Option String
  published_year : Option ℚ
  pages : Option ℚ
  isbn : Option String
  views : Option ℚ
  available_copies : Option ℚ
deriving Repr, DecidableEq

/-- A default-empty record, convenient for building test inputs. -/
def emptyBook : Book :=
  { id := 0, title := none, author := none, description := none,
    cover_url := none, rating := none, genre := none, published_year := none,
    pages := none, isbn := none, views := none, available_copies := none }

/-- `needle` matches at the head of `hay` (character-by-character). -/
def leadMatch : List Char → List Char → Bool
  | [], _ => true
  | _ :: _, [] => false
  | c :: cs, d :: ds => c == d && leadMatch cs ds

/-- `needle` occurs as a contiguous run somewhere in `hay`. -/
def occursIn (needle : List Char) : List Char → Bool
  | [] => needle.isEmpty
  | d :: ds => leadMatch needle (d :: ds) || occursIn needle ds

/-- JavaScript `s.includes(t)`: `t` is a substring of `s` (the empty string
is a substring of everything). -/
def jsIncludes (s t : String) : Bool :=
  occursIn t.toList s.toList

/-- JavaScript `s.toLowerCase()`, character by character (faithful for the
ASCII data the application handles). -/
def jsToLowerCase (s : String) : String :=
  ⟨s.toList.map Char.toLower⟩

/-- One disjunct of the filter predicate:
`field?.toLowerCase().includes(term.toLowerCase())` used as a boolean — when
the field is absent the optional chain yields `undefined`, which is falsy in
the `||` chain, so an absent field never matches. -/
def optMatch (field : Option String) (term : String) : Bool :=
  match field with
  | none => false
  | some s => jsIncludes (jsToLowerCase s) (jsToLowerCase term)

/-- The `filteredBooks` derivation of `Books.jsx`:
`books.filter(book => book.title?...includes(...) || book.author?... || book.genre?...)`.
A pure function — `Array.prototype.filter` allocates a fresh array and never
mutates its receiver. -/
def filteredBooks (books : List Book) (searchTerm : String) : List Book :=
  books.filter (fun book =>
    optMatch book.title searchTerm || optMatch book.author searchTerm ||
      optMatch book.genre searchTerm)

/-- Written from the spec's words, for comparison with `filteredBooks`: a
record matches when at least one of title, author, genre is present and
contains the term as a case-insensitive substring. -/
def specMatches (term : String) (book : Book) : Bool :=
  [book.title, book.author, book.genre].any (fun field =>
    match field with
    | some s => jsIncludes (jsToLowerCase s) (jsToLowerCase term)
    | none => false)

/-! ## HTTP client adapter (`api.js`) -/

/-- The slice of an axios request config the interceptor can observe or
change: the per-request fields plus the header map (modelled as an
association list, first binding wins, as JS object properties). -/
structure AxiosConfig where
  url : String
  method : String
  baseURL : String
  headers : List (String × String)
deriving Repr, DecidableEq

/-- Header lookup `config.headers[k]`. -/
def getHeader (headers : List (String × String)) (k : String) : Option String :=
  (headers.find? (fun p => p.1 == k)).map (fun p => p.2)

/-- JS property assignment `config.headers[k] = v`: overwrite the existing
binding, or append a new one. -/
def setHeader : List (String × String) → String → String → List (String × String)
  | [], k, v => [(k, v)]
  | p :: rest, k, v => if p.1 == k then (k, v) :: rest else p :: setHeader rest k v

/-- The defaults `axios.create` is called with in `api.js`: empty `baseURL`
(proxy) and a JSON content-type header. -/
def apiDefaults : AxiosConfig :=
  { url := "", method := "get", baseURL := "",
    headers := [("Content-Type", "application/json")] }

/-- The request interceptor of `api.js`:
`const token = localStorage.getItem('token'); if (token) config.headers.Authorization = ...`.
`localStorage.getItem` returns `null` (here `none`) when the key is unset;
`if (token)` tests JS truthiness, so both `null` and the empty string skip
the header.  `store` is the persisted local state. -/
def requestInterceptor (store : String → Option String) (config : AxiosConfig) : AxiosConfig :=
  match store "token" with
  | some token =>
      if token.isEmpty then config
      else { config with
             headers := setHeader config.headers "Authorization" ("Bearer " ++ token) }
  | none => config

/-! ## Book card rating (`BookCard.jsx`) -/

/-- The numeric rating value `BookCard` renders: `(book.rating || 4.0)`
(before `toFixed(1)` formatting).  `||` falls back on every falsy value, so
an absent rating and a present rating of `0` both render as `4.0`. -/
def displayedRating (book : Book) : ℚ :=
  match book.rating with
  | none => 4
  | some r => if r = 0 then 4 else r

/-- `true` exactly on non-empty JSON arrays (a stating device for the
catalog-shape claims). -/
def isNonEmptyArr : JVal → Bool
  | .jarr xs => !xs.isEmpty
  | _ => false

/-! ## Lemmas about the loader's branch conditions -/

lemma jsGtZero_jarr_length (xs : List JVal) :
    jsGtZero (JVal.jsGet (.jarr xs) "length") = true ↔ xs ≠ [] := by
  have : JVal.jsGet (.jarr xs) "length" = some (.jnum (xs.length : ℚ)) := rfl
  rw [this]
  simp only [jsGtZero, jsToNumber, decide_eq_true_eq, Nat.cast_pos]
  exact List.length_pos

lemma flatCond_jarr (xs : List JVal) : flatCond (.jarr xs) = true ↔ xs ≠ [] := by
  simp only [flatCond, JVal.truthy, JVal.isArray, Bool.true_and]
  exact jsGtZero_jarr_length xs

lemma flatCond_eq_true_iff (data : JVal) :
    flatCond data = true ↔ ∃ xs, data = .jarr xs ∧ xs ≠ [] := by
  cases data with
  | jarr xs => simpa using (flatCond_jarr xs).trans (by simp)
  | _ => simp [flatCond, JVal.truthy, JVal.isArray]

lemma flatCond_of_not_array (data : JVal) (h : data.isArray = false) :
    flatCond data = false := by
  simp [flatCond, h]

lemma nestedCond_spec (data : JVal) (h : nestedCond data = true) :
    ∃ b, data.optChainGet "books" = some b ∧ b.truthy = true ∧
      jsGtZero (b.jsGet "length") = true := by
  unfold nestedCond at h
  cases hopt : data.optChainGet "books" with
  | none => rw [hopt] at h; simp [JVal.truthyOpt] at h
  | some b =>
      rw [hopt] at h
      simp only [JVal.truthyOpt, Bool.and_eq_true] at h
      exact ⟨b, rfl, h.1, h.2⟩

/-! ## Claim theorems: catalog loader -/

/-- Claim C1: a backend response whose body is a non-empty flat array is
installed verbatim (same records, same order), the source is remote-flat,
and no error notice is emitted (and loading ends). -/
theorem fetchBooks_flat_array (xs : List JVal) (h : xs ≠ []) :
    fetchBooks (.success (.jarr xs)) =
      { books := .jarr xs, src := .remoteFlat, notice := none, loading := false } := by
  simp [fetchBooks, (flatCond_jarr xs).mpr h]

/-- Witness for C1: a concrete one-record flat response. -/
theorem fetchBooks_flat_array_w :
    fetchBooks (.success (.jarr [.jstr "dune"])) =
      { books := .jarr [.jstr "dune"], src := .remoteFlat, notice := none, loading := false } :=
  fetchBooks_flat_array [.jstr "dune"] (List.cons_ne_nil _ _)

/-- Claim C2: a body that is not an array but carries a `books` field that is
a non-empty array installs exactly `body.books` with source remote-nested. -/
theorem fetchBooks_nested_books (data : JVal) (xs : List JVal)
    (hflat : data.isArray = false)
    (hbooks : data.optChainGet "books" = some (.jarr xs))
    (hne : xs ≠ []) :
    fetchBooks (.success data) =
      { books := .jarr xs, src := .remoteNested, notice := none, loading := false } := by
  have hfc : flatCond data = false := flatCond_of_not_array data hflat
  have hlen : jsGtZero (JVal.jsGet (.jarr xs) "length") = true :=
    (jsGtZero_jarr_length xs).mpr hne
  have hnc : nestedCond data = true := by
    simp [nestedCond, hbooks, JVal.truthyOpt, JVal.truthy, hlen]
  have hval : nestedValue data = .jarr xs := by simp [nestedValue, hbooks]
  simp [fetchBooks, hfc, hnc, hval]

/-- Witness for C2: the concrete response `{books: ["dune"]}`. -/
theorem fetchBooks_nested_books_w :
    fetchBooks (.success (.jobj [("books", .jarr [.jstr "dune"])])) =
      { books := .jarr [.jstr "dune"], src := .remoteNested, notice := none, loading := false } :=
  fetchBooks_nested_books (.jobj [("books", .jarr [.jstr "dune"])]) [.jstr "dune"]
    rfl rfl (List.cons_ne_nil _ _)

/-- Claim C4: a failed fetch (transport failure or non-2xx, i.e. any thrown
error) installs the fallback dataset, emits exactly the notice
"Using demo data. Backend connection failed.", and ends loading; the
`try`/`catch` absorbs the error, so `fetchBooks` is a total function and
nothing propagates to the presentation layer. -/
theorem fetchBooks_failure_notice :
    fetchBooks .failure =
      { books := .jarr MOCK_BOOKS, src := .fallback,
        notice := some "Using demo data. Backend connection failed.", loading := false } := rfl

/-- Counterexample to claim C10 as stated: on the successful response
`{books: "xy"}` the loader finishes (loading is false) but the installed
catalog is the string `"xy"` — neither a non-empty remote list nor the
six-record fallback dataset. -/
theorem fetchBooks_nonlist_catalog_cex :
    (fetchBooks (.success (.jobj [("books", .jstr "xy")]))).loading = false ∧
    (fetchBooks (.success (.jobj [("books", .jstr "xy")]))).books = .jstr "xy" ∧
    isNonEmptyArr (fetchBooks (.success (.jobj [("books", .jstr "xy")]))).books = false :=
  ⟨rfl, rfl, rfl⟩

/-- Claim C10 amended: after every completed load — success or failure, any
response shape — the loading flag is false (the `finally` block runs on
every path); and whenever the response's `books` field (if the response has
one) is an actual array, the installed catalog is a non-empty list — each
branch installs either a non-empty remote array or the non-empty fallback
dataset.  (A truthy non-array `books` value with positive length escapes the
second part: the nested branch installs it verbatim, so the catalog is then
not a list.) -/
theorem fetchBooks_loaded_nonempty (r : FetchResult) :
    (fetchBooks r).loading = false ∧
    ((∀ data b, r = .success data → data.optChainGet "books" = some b →
        ∃ ys, b = .jarr ys) →
      ∃ xs, (fetchBooks r).books = .jarr xs ∧ xs ≠ []) := by
  cases r with
  | failure => exact ⟨rfl, fun _ => ⟨MOCK_BOOKS, rfl, by simp [MOCK_BOOKS]⟩⟩
  | success data =>
      cases hfc : flatCond data with
      | true =>
          obtain ⟨xs, hdx, hne⟩ := (flatCond_eq_true_iff data).mp hfc
          subst hdx
          exact ⟨by simp [fetchBooks, hfc], fun _ => ⟨xs, by simp [fetchBooks, hfc], hne⟩⟩
      | false =>
          cases hnc : nestedCond data with
          | true =>
              refine ⟨by simp [fetchBooks, hfc, hnc], fun h => ?_⟩
              obtain ⟨b, hb, _, hlen⟩ := nestedCond_spec data hnc
              obtain ⟨ys, hby⟩ := h data b rfl hb
              subst hby
              have hysne : ys ≠ [] := (jsGtZero_jarr_length ys).mp hlen
              exact ⟨ys, by simp [fetchBooks, hfc, hnc, nestedValue, hb], hysne⟩
          | false =>
              exact ⟨by simp [fetchBooks, hfc, hnc],
                fun _ => ⟨MOCK_BOOKS, by simp [fetchBooks, hfc, hnc], by simp [MOCK_BOOKS]⟩⟩

/-- Witness for amended C10: on the concrete nested response
`{books: ["a"]}` — whose `books` field is an actual array, so the
array-shaped hypothesis is discharged non-vacuously — loading ends false and
the installed catalog is a non-empty list. -/
theorem fetchBooks_loaded_nonempty_w :
    (fetchBooks (.success (.jobj [("books", .jarr [.jstr "a"])]))).loading = false ∧
    ∃ xs, (fetchBooks (.success (.jobj [("books", .jarr [.jstr "a"])]))).books = .jarr xs ∧
      xs ≠ [] := by
  have h := fetchBooks_loaded_nonempty (.success (.jobj [("books", .jarr [.jstr "a"])]))
  refine ⟨h.1, h.2 ?_⟩
  intro data b hd hb
  cases hd
  have hb' : some (JVal.jarr [.jstr "a"]) = some b := hb
  cases hb'
  exact ⟨[.jstr "a"], rfl⟩

/-! ## Claim theorems: search filter -/

lemma occursIn_nil (l : List Char) : occursIn [] l = true := by
  cases l <;> simp [occursIn, leadMatch, List.isEmpty]

lemma optMatch_some_empty (s : String) : optMatch (some s) "" = true := by
  simp only [optMatch, jsIncludes, jsToLowerCase]
  have : (String.toList ⟨("" : String).toList.map Char.toLower⟩) = [] := rfl
  rw [this]
  exact occursIn_nil _

lemma filterPred_eq_specMatches (term : String) (b : Book) :
    (optMatch b.title term || optMatch b.author term || optMatch b.genre term)
      = specMatches term b := by
  cases ht : b.title <;> cases ha : b.author <;> cases hg : b.genre <;>
    simp [specMatches, optMatch, ht, ha, hg, Bool.or_assoc]

/-- Claim C5: for every catalog and term, the filter returns exactly the
records at least one of whose present fields among title, author, genre
contains the term as a case-insensitive substring (`specMatches`, written
from the spec's words); an absent field never matches; the result is a
sublist of the catalog, so the original relative order is preserved; and the
embedding is a pure function, so the source catalog is untouched (JS
`Array.prototype.filter` likewise allocates a fresh array). -/
theorem filteredBooks_spec (catalog : List Book) (term : String) :
    filteredBooks catalog term = catalog.filter (fun b => specMatches term b) ∧
    (filteredBooks catalog term).Sublist catalog := by
  constructor
  · exact List.filter_congr (fun b _ => filterPred_eq_specMatches term b)
  · exact List.filter_sublist catalog

/-- Counterexample to claim C6 as stated: a record with title, author and
genre all absent is dropped even by the empty search term — every disjunct
of the predicate is `undefined`, hence falsy — so `filter(catalog, "")` is
not the identity on every catalog. -/
theorem filteredBooks_empty_term_cex :
    filteredBooks [emptyBook] "" = [] ∧ ([] : List Book) ≠ [emptyBook] :=
  ⟨rfl, by simp⟩

/-- Claim C6 amended: on every catalog in which each record has at least one
of title, author, genre present, the empty search term is the identity
transform (membership and order unchanged).  A record with all three fields
absent is dropped even by the empty term. -/
theorem filteredBooks_empty_term_id (catalog : List Book)
    (h : ∀ b ∈ catalog, b.title ≠ none ∨ b.author ≠ none ∨ b.genre ≠ none) :
    filteredBooks catalog "" = catalog := by
  apply List.filter_eq_self.mpr
  intro b hb
  rcases h b hb with h1 | h1 | h1 <;>
    obtain ⟨s, hs⟩ := Option.ne_none_iff_exists'.mp h1 <;>
    simp [hs, optMatch_some_empty]

/-- Witness for amended C6: a one-record catalog with a title passes the
empty search term unchanged. -/
theorem filteredBooks_empty_term_id_w :
    filteredBooks [{ emptyBook with title := some "The Hobbit" }] "" =
      [{ emptyBook with title := some "The Hobbit" }] :=
  filteredBooks_empty_term_id _ (by intro b hb; simp at hb; subst hb; left; simp)

/-- Claim C7: the filter is idempotent — filtering an already-filtered
catalog by the same term returns it unchanged. -/
theorem filteredBooks_idempotent (catalog : List Book) (term : String) :
    filteredBooks (filteredBooks catalog term) term = filteredBooks catalog term := by
  unfold filteredBooks
  rw [List.filter_filter]
  exact List.filter_congr (fun b _ => by
    cases hq : (optMatch b.title term || optMatch b.author term || optMatch b.genre term) <;>
      simp [hq])

/-! ## Claim theorems: HTTP client adapter -/

lemma getHeader_cons (p : String × String) (rest : List (String × String)) (k : String) :
    getHeader (p :: rest) k = if p.1 == k then some p.2 else getHeader rest k := by
  by_cases hp : p.1 == k <;> simp [getHeader, List.find?, hp]

lemma getHeader_setHeader_self (headers : List (String × String)) (k v : String) :
    getHeader (setHeader headers k v) k = some v := by
  induction headers with
  | nil => simp [setHeader, getHeader, List.find?]
  | cons p rest ih =>
      by_cases hp : p.1 == k
      · simp [setHeader, hp, getHeader_cons]
      · simp [setHeader, hp, getHeader_cons, ih]

lemma getHeader_setHeader_other (headers : List (String × String)) (k k' v : String)
    (h : k' ≠ k) :
    getHeader (setHeader headers k v) k' = getHeader headers k' := by
  have hkk : (k == k') = false := by
    simp only [beq_eq_false_iff_ne, ne_eq]
    exact fun he => h he.symm
  induction headers with
  | nil => simp [setHeader, getHeader_cons, getHeader, hkk]
  | cons p rest ih =>
      by_cases hp : p.1 == k
      · have hpk : p.1 = k := by simpa using hp
        simp [setHeader, hp, getHeader_cons, hkk, hpk]
      · simp [setHeader, hp, getHeader_cons, ih]

/-- Claim C8 amended: when the persisted local state holds a non-empty
credential string under key `token`, the interceptor attaches exactly the
header `Authorization: Bearer <token>` and leaves every other part of the
request configuration (url, method, baseURL, all other headers) unchanged;
when the credential is absent — or the stored string is empty, which JS
truthiness treats as absent — the configuration is returned untouched. -/
theorem requestInterceptor_spec (store : String → Option String) (config : AxiosConfig) :
    (∀ t, store "token" = some t → t ≠ "" →
      (requestInterceptor store config).url = config.url ∧
      (requestInterceptor store config).method = config.method ∧
      (requestInterceptor store config).baseURL = config.baseURL ∧
      getHeader (requestInterceptor store config).headers "Authorization" =
        some ("Bearer " ++ t) ∧
      (∀ k, k ≠ "Authorization" →
        getHeader (requestInterceptor store config).headers k = getHeader config.headers k)) ∧
    ((store "token" = none ∨ store "token" = some "") →
      requestInterceptor store config = config) := by
  constructor
  · intro t ht hne
    have hemp : t.isEmpty = false := by
      cases hq : t.isEmpty
      · rfl
      · exact absurd ((String.isEmpty_iff t).mp hq) hne
    have hI : requestInterceptor store config =
        { config with headers := setHeader config.headers "Authorization" ("Bearer " ++ t) } := by
      simp [requestInterceptor, ht, hemp]
    rw [hI]
    exact ⟨rfl, rfl, rfl, getHeader_setHeader_self _ _ _,
      fun k hk => getHeader_setHeader_other _ _ _ _ hk⟩
  · rintro (h | h) <;> simp [requestInterceptor, h, String.isEmpty]

/-- Witness for amended C8: with the stored credential `secret`, the
outgoing request carries `Authorization: Bearer secret`. -/
theorem requestInterceptor_spec_w :
    getHeader (requestInterceptor (fun k => if k == "token" then some "secret" else none)
        apiDefaults).headers "Authorization" = some ("Bearer " ++ "secret") :=
  (((requestInterceptor_spec (fun k => if k == "token" then some "secret" else none)
      apiDefaults).1 "secret" rfl (by decide)).2.2.2).1

/-- A persisted local state whose `token` key holds the empty string. -/
def emptyTokenStore : String → Option String :=
  fun k => if k == "token" then some "" else none

/-- Counterexample to claim C8 as stated: a credential string is present
under key `token` (the empty string), yet the interceptor attaches no
Authorization header — `if (token)` tests JS truthiness, and the empty
string is falsy. -/
theorem requestInterceptor_empty_token_cex :
    emptyTokenStore "token" = some "" ∧
    requestInterceptor emptyTokenStore apiDefaults = apiDefaults ∧
    getHeader (requestInterceptor emptyTokenStore apiDefaults).headers "Authorization" = none :=
  ⟨rfl, rfl, rfl⟩

/-! ## Claim theorems: book card rating -/

/-- Counterexample to claim C9 as stated: a record whose rating field is
present and equal to `0` — a value inside the 0–5 range — renders as `4.0`,
not `0`: `book.rating || 4.0` falls back on every falsy value, and `0` is
falsy. -/
theorem displayedRating_zero_cex :
    ({ emptyBook with rating := some 0 } : Book).rating = some 0 ∧
    displayedRating { emptyBook with rating := some 0 } = 4 ∧
    displayedRating { emptyBook with rating := some 0 } ≠ 0 := by
  refine ⟨rfl, ?_, ?_⟩ <;> simp [displayedRating]

/-- Claim C9 amended: the rendered rating equals the record's rating field
whenever that field is present and non-zero, and equals `4.0` when the field
is absent or zero (JS `||` treats a zero rating like an absent one). -/
theorem displayedRating_spec (b : Book) :
    (∀ r : ℚ, b.rating = some r → r ≠ 0 → displayedRating b = r) ∧
    ((b.rating = none ∨ b.rating = some 0) → displayedRating b = 4) := by
  constructor
  · intro r hr hne
    simp [displayedRating, hr, hne]
  · rintro (h | h) <;> simp [displayedRating, h]

/-- Witness for amended C9: a present rating of `4.5` renders as `4.5`. -/
theorem displayedRating_spec_w :
    displayedRating { emptyBook with rating := some 4.5 } = 4.5 :=
  (displayedRating_spec _).1 4.5 rfl (by norm_num)

end BiblioAI
